import Mathlib

/-!
# Verification of the `luhnsynth` transaction-data generator

Shallow embedding of `src/main.rs`. Card numbers, CVVs and other digit
strings are modelled as `List ℕ` of digit values (every character the
program writes into such a string is a decimal digit pushed one at a
time); conversion to `String` is `digitsToString`. Randomness is made
explicit: every `rng.gen_range(..)` draw becomes a parameter whose type
is the support of the draw (`rng.gen_range(0..=9)` becomes `Fin 10`,
`rng.gen_range(10000..99999)` becomes `Fin 89999` shifted by 10000, an
unbounded stream of draws becomes `ℕ → Fin n`), and
`vec.choose(&mut rng).unwrap()` (in `gen_random_element`) becomes
selection `l.get i` at a drawn index `i : Fin l.length` — the `unwrap`
panic on an empty slice corresponds to `Fin 0` being uninhabited.
`f64` arithmetic on amounts is idealized over `ℚ` (the values involved
are sums of small integers and hundredths, where this idealization is
exact at the level of the stated properties); `f64::round` (round half
away from zero, applied here only to nonnegative values) is `⌊q + 1/2⌋`.
The clock and the `chrono` date formatting are external to the
repository and enter through an `Env` parameter.
-/

namespace LuhnSynth

/-- One step of the doubling rule of `apply_luhn_algorithm`
(`src/main.rs:196-202`): double the digit and subtract 9 when the
doubled value exceeds 9. -/
def luhnDouble (d : ℕ) : ℕ :=
  if 9 < 2 * d then 2 * d - 9 else 2 * d

/-- The summation loop of `apply_luhn_algorithm` (`src/main.rs:191-206`),
processing a digit list front-to-back with the running `double` flag
(the source iterates `chars().rev()`, so this is applied to the reversed
list). Entries that are not decimal digits are skipped without toggling
the flag, mirroring the `if let Some(digit) = c.to_digit(10)` guard. -/
def luhnSumFrom : Bool → List ℕ → ℕ
  | _, [] => 0
  | dbl, d :: rest =>
      if d ≤ 9 then
        (if dbl then luhnDouble d else d) + luhnSumFrom (!dbl) rest
      else
        luhnSumFrom dbl rest

/-- The sum computed by the source loop over a digit string: iterate over
the digits from the rightmost, starting with the `double` flag false.
This is also exactly the standard Luhn validation sum of a complete
number (double every second digit from the right, starting at the
second-from-rightmost). -/
def luhnSum (l : List ℕ) : ℕ :=
  luhnSumFrom false l.reverse

/-- Standard Luhn validity of a complete digit string: its Luhn sum is
divisible by 10. -/
def LuhnValid (l : List ℕ) : Prop :=
  luhnSum l % 10 = 0

/-- The `while number.len() < 15` loop of `apply_luhn_algorithm`
(`src/main.rs:179-181`): append drawn digits (`rng.gen_range(0..=9)`)
until the string has at least 15 characters. `fill i` is the i-th draw. -/
def padTo15 (number : List ℕ) (fill : ℕ → Fin 10) : List ℕ :=
  number ++ (List.range (15 - number.length)).map (fun i => (fill i).val)

/-- `apply_luhn_algorithm` (`src/main.rs:174-212`). The `partial`
argument is named `seed` here (`partial` is not a usable identifier in
this development). Pads the seed to at least 15 digits, drops the last
digit when the padded string has 16 or more characters, computes the
loop sum, and appends the check digit `(10 - sum % 10) % 10`. -/
def apply_luhn_algorithm (seed : List ℕ) (fill : ℕ → Fin 10) : List ℕ :=
  let number := padTo15 seed fill
  let without_check_digit :=
    if number.length < 16 then number else number.take (number.length - 1)
  let check_digit := (10 - luhnSum without_check_digit % 10) % 10
  without_check_digit ++ [check_digit]

/-- `CardBrand` (`src/main.rs:14-20`); prefixes are digit lists. -/
structure CardBrand where
  name : String
  prefixes : List (List ℕ)
  lengths : List ℕ
  cvv_length : ℕ

/-- `generate_card_number` (`src/main.rs:215-230`): pick a prefix and a
target length (modelled as drawn indices), run `apply_luhn_algorithm` on
the prefix, and keep the first `length` characters. The byte slice
`full_number[0..length]` is modelled as `List.take length`; the bound
check the slice performs at runtime is stated separately as
`generate_card_number_slice_ok`. -/
def generate_card_number (brand : CardBrand) (pIdx : Fin brand.prefixes.length)
    (lnIdx : Fin brand.lengths.length) (fill : ℕ → Fin 10) : List ℕ :=
  let pfx := brand.prefixes.get pIdx
  let length := brand.lengths.get lnIdx
  let full_number := apply_luhn_algorithm pfx fill
  full_number.take length

/-- The in-bounds condition of the byte slice `full_number[0..length]` in
`generate_card_number` (`src/main.rs:229`): the slice panics unless the
target length is at most the length of the string returned by
`apply_luhn_algorithm` (all characters are single-byte ASCII digits, so
the byte index is a character boundary exactly when it is in bounds). -/
def generate_card_number_slice_ok (brand : CardBrand)
    (pIdx : Fin brand.prefixes.length) (lnIdx : Fin brand.lengths.length)
    (fill : ℕ → Fin 10) : Prop :=
  brand.lengths.get lnIdx ≤
    (apply_luhn_algorithm (brand.prefixes.get pIdx) fill).length

/-- The card-brand table built in `main` (`src/main.rs:394-434`). -/
def card_brands : List CardBrand :=
  [ { name := "Visa", prefixes := [[4]], lengths := [16], cvv_length := 3 },
    { name := "Mastercard",
      prefixes := [[5, 1], [5, 2], [5, 3], [5, 4], [5, 5]],
      lengths := [16], cvv_length := 3 },
    { name := "American Express", prefixes := [[3, 4], [3, 7]],
      lengths := [15], cvv_length := 4 },
    { name := "Discover",
      prefixes := [[6, 0, 1, 1], [6, 4, 4], [6, 4, 5], [6, 4, 6], [6, 4, 7],
        [6, 4, 8], [6, 4, 9], [6, 5]],
      lengths := [16], cvv_length := 3 } ]

/-- Digit list rendered as the string the program builds by pushing one
decimal digit character at a time. -/
def digitsToString (l : List ℕ) : String :=
  String.mk (l.map Nat.digitChar)

/-- Well-formedness of a brand table entry: every prefix is a digit
string of at most 15 characters and every target length is at most 16
(decidable, and checked below for the whole table of `main`). -/
@[reducible]
def brandOk (b : CardBrand) : Prop :=
  (∀ p ∈ b.prefixes, p.length ≤ 15 ∧ ∀ d ∈ p, d ≤ 9) ∧ ∀ L ∈ b.lengths, L ≤ 16

/-- `Merchant` (`src/main.rs:23-28`). -/
structure Merchant where
  name : String
  id : String
  category : String

/-- `TransactionStatus` (`src/main.rs:31-41`). -/
inductive TransactionStatus where
  | Approved
  | Declined
  | Pending
  | Refunded
deriving DecidableEq

/-- `DeclineReason` (`src/main.rs:56-66`). -/
inductive DeclineReason where
  | InsufficientFunds
  | CardExpired
  | InvalidCard
  | SuspiciousActivity
deriving DecidableEq

/-- The `Distribution<TransactionStatus>` sampler (`src/main.rs:44-53`):
`rng.gen_range(0..4)` mapped through the match. -/
def sample_status (d : Fin 4) : TransactionStatus :=
  match d.val with
  | 0 => .Approved
  | 1 => .Declined
  | 2 => .Pending
  | _ => .Refunded

/-- The `Distribution<DeclineReason>` sampler (`src/main.rs:69-78`). -/
def sample_decline (d : Fin 4) : DeclineReason :=
  match d.val with
  | 0 => .InsufficientFunds
  | 1 => .CardExpired
  | 2 => .InvalidCard
  | _ => .SuspiciousActivity

/-- `CardExpiry` (`src/main.rs:81-85`); `month` is `u8`, `year` is `u16`
in the source, both comfortably inside `ℕ` for the generated values. -/
structure CardExpiry where
  month : ℕ
  year : ℕ

/-- `{:02}` formatting of a number below 100: pad with a leading zero to
two characters. -/
def pad2 (n : ℕ) : String :=
  if n < 10 then "0" ++ Nat.repr n else Nat.repr n

/-- `CardExpiry::to_string` (`src/main.rs:92-94`):
`format!("{:02}/{}", month, year % 100)` — the month is zero-padded to
two digits, the year remainder is printed without padding. -/
def CardExpiry.to_string (e : CardExpiry) : String :=
  pad2 e.month ++ "/" ++ Nat.repr (e.year % 100)

/-- `gen_random_expiry_date` (`src/main.rs:135-141`): month is
`gen_range(1..=12)`, year is the current year plus `gen_range(1..=5)`
(the `as u16` cast never truncates for realistic years). `currentYear`
models `Utc::now().year()`. -/
def gen_random_expiry_date (currentYear : ℕ) (yearsDraw : Fin 5)
    (monthDraw : Fin 12) : CardExpiry :=
  { month := 1 + monthDraw.val, year := currentYear + (1 + yearsDraw.val) }

/-- The fixed alphabet of `gen_transaction_id` (`src/main.rs:147`). -/
def tx_charset : List Char := "ABCDEFGHIJKLMNOPQRSTUVWXYZ0123456789".toList

/-- `gen_transaction_id` (`src/main.rs:144-153`): `"TXN"` followed by 9
characters drawn from the 36-character alphabet
(`rng.gen_range(0..CHARSET.len())` is the `Fin 36` draw). -/
def gen_transaction_id (draws : ℕ → Fin 36) : String :=
  "TXN" ++ String.mk ((List.range 9).map (fun i => tx_charset.getD (draws i).val 'A'))

/-- `gen_ip_address` (`src/main.rs:156-165`): first octet
`gen_range(1..255)`, the rest `gen_range(0..255)` (upper bound
exclusive). -/
def gen_ip_address (a : Fin 254) (b c d : Fin 255) : String :=
  Nat.repr (1 + a.val) ++ "." ++ Nat.repr b.val ++ "." ++ Nat.repr c.val
    ++ "." ++ Nat.repr d.val

/-- The numeric part of `gen_device_id` (`src/main.rs:170`):
`rng.gen_range(10000..99999)` — upper bound exclusive, so the support is
[10000, 99998]. -/
def device_id_num (d : Fin 89999) : ℕ :=
  10000 + d.val

/-- `gen_device_id` (`src/main.rs:168-171`): `format!("DEV{}", ...)`. -/
def gen_device_id (d : Fin 89999) : String :=
  "DEV" ++ Nat.repr (device_id_num d)

/-- `generate_cvv` (`src/main.rs:233-240`): `length` drawn decimal
digits. -/
def generate_cvv (length : ℕ) (fill : ℕ → Fin 10) : List ℕ :=
  (List.range length).map (fun i => (fill i).val)

/-- `f64::round` as used on the nonnegative cents draw
(`src/main.rs:273`): round half away from zero, which for a nonnegative
argument is `⌊q + 1/2⌋`; `f64` values are idealized as rationals. -/
def f64_round (q : ℚ) : ℤ :=
  ⌊q + 1 / 2⌋

/-- `Transaction` (`src/main.rs:98-118`), fields in declaration order;
the `f64` amount is idealized as `ℚ`. -/
structure Transaction where
  transaction_id : String
  transaction_date : String
  status : TransactionStatus
  decline_reason : Option DeclineReason
  cardholder_name : String
  card_number : String
  card_brand : String
  card_expiry : String
  cvv : String
  amount : ℚ
  currency : String
  merchant_name : String
  merchant_id : String
  merchant_category : String
  payment_method : String
  ip_address : String
  device_id : String
  user_agent : String

/-- Execution environment external to the repository: the current year
as seen by `Utc::now().year()`, and the `chrono` rendering
`(Utc::now() - Duration::days(d)).to_rfc3339()` used for the
transaction date (`src/main.rs:127-132`, `src/main.rs:284`). -/
structure Env where
  currentYear : ℕ
  renderDate : ℕ → String

/-- All random draws consumed while assembling one transaction in
`generate_transaction` (`src/main.rs:243-302`), each with the support of
the corresponding `gen_range` call; the prefix/length indices depend on
the drawn brand, as in the source. -/
structure TxDraws (cbs : List CardBrand) (mers : List Merchant)
    (fns lns curs uas : List String) where
  bIdx : Fin cbs.length
  pIdx : Fin (cbs.get bIdx).prefixes.length
  lnIdx : Fin (cbs.get bIdx).lengths.length
  cardFill : ℕ → Fin 10
  cvvFill : ℕ → Fin 10
  statusDraw : Fin 4
  declineDraw : Fin 4
  mIdx : Fin mers.length
  fIdx : Fin fns.length
  laIdx : Fin lns.length
  cIdx : Fin curs.length
  uIdx : Fin uas.length
  jpyDraw : Fin 49901
  intDraw : Fin 1000
  fracDraw : { q : ℚ // 0 ≤ q ∧ q < 1 }
  txIdDraw : ℕ → Fin 36
  daysAgo : Fin 1095
  ipA : Fin 254
  ipB : Fin 255
  ipC : Fin 255
  ipD : Fin 255
  devDraw : Fin 89999
  expYears : Fin 5
  expMonth : Fin 12

/-- `generate_transaction` (`src/main.rs:243-302`). The amount is a
whole `gen_range(100..=50000)` draw for JPY, otherwise
`gen_range(1..=1000) + (gen_range(0.0..1.0) * 100.0).round() / 100.0`. -/
def generate_transaction (env : Env) (cbs : List CardBrand)
    (mers : List Merchant) (fns lns curs uas : List String)
    (d : TxDraws cbs mers fns lns curs uas) : Transaction :=
  let brand := cbs.get d.bIdx
  let merchant := mers.get d.mIdx
  let status := sample_status d.statusDraw
  let first_name := fns.get d.fIdx
  let last_name := lns.get d.laIdx
  let currency := curs.get d.cIdx
  let user_agent := uas.get d.uIdx
  let card_number := generate_card_number brand d.pIdx d.lnIdx d.cardFill
  let expiry_date := gen_random_expiry_date env.currentYear d.expYears d.expMonth
  let amount : ℚ :=
    if currency = "JPY" then
      ((100 + d.jpyDraw.val : ℕ) : ℚ)
    else
      ((1 + d.intDraw.val : ℕ) : ℚ) + (f64_round (d.fracDraw.val * 100) : ℚ) / 100
  let decline_reason :=
    match status with
    | .Declined => some (sample_decline d.declineDraw)
    | _ => none
  { transaction_id := gen_transaction_id d.txIdDraw
    transaction_date := env.renderDate d.daysAgo.val
    status := status
    decline_reason := decline_reason
    cardholder_name := first_name ++ " " ++ last_name
    card_number := digitsToString card_number
    card_brand := brand.name
    card_expiry := expiry_date.to_string
    cvv := digitsToString (generate_cvv brand.cvv_length d.cvvFill)
    amount := amount
    currency := currency
    merchant_name := merchant.name
    merchant_id := merchant.id
    merchant_category := merchant.category
    payment_method := "credit_card"
    ip_address := gen_ip_address d.ipA d.ipB d.ipC d.ipD
    device_id := gen_device_id d.devDraw
    user_agent := user_agent }

/-- `generate_transactions` (`src/main.rs:305-326`): `count` records,
each from its own draws. -/
def generate_transactions (env : Env) (count : ℕ) (cbs : List CardBrand)
    (mers : List Merchant) (fns lns curs uas : List String)
    (draws : ℕ → TxDraws cbs mers fns lns curs uas) : List Transaction :=
  (List.range count).map (fun i => generate_transaction env cbs mers fns lns curs uas (draws i))

/-- The CSV header line literal of `write_transactions_to_csv`
(`src/main.rs:335`). -/
def csv_header : String :=
  "transaction_id,transaction_date,status,decline_reason,cardholder_name,card_number,card_brand,card_expiry,cvv,amount,currency,merchant_name,merchant_id,merchant_category,payment_method,ip_address,device_id,user_agent"

/-- The 18 header field names, in order; `String.intercalate ","` of
this list is proved below to be exactly the `csv_header` literal. -/
def csv_header_fields : List String :=
  ["transaction_id", "transaction_date", "status", "decline_reason",
   "cardholder_name", "card_number", "card_brand", "card_expiry", "cvv",
   "amount", "currency", "merchant_name", "merchant_id",
   "merchant_category", "payment_method", "ip_address", "device_id",
   "user_agent"]

/-- The status labels written by the CSV encoder (`src/main.rs:350-355`). -/
def csv_status_label : TransactionStatus → String
  | .Approved => "approved"
  | .Declined => "declined"
  | .Pending => "pending"
  | .Refunded => "refunded"

/-- The decline-reason labels written by the CSV encoder
(`src/main.rs:341-346`). -/
def csv_decline_label : DeclineReason → String
  | .InsufficientFunds => "insufficient_funds"
  | .CardExpired => "card_expired"
  | .InvalidCard => "invalid_card"
  | .SuspiciousActivity => "suspicious_activity"

/-- The CSV decline-reason field (`src/main.rs:340-348`): the label when
present, the empty string when absent. -/
def csv_decline_field : Option DeclineReason → String
  | some r => csv_decline_label r
  | none => ""

/-- `{:.2}` formatting of the amount (`src/main.rs:359`): the value
rounded to cents and printed with exactly two fraction digits (the
amounts this program produces are nonnegative; the sign handling of
negative `f64` formatting is out of scope). -/
def format_amount_2 (q : ℚ) : String :=
  let c := (f64_round (q * 100)).toNat
  Nat.repr (c / 100) ++ "." ++ pad2 (c % 100)

/-- The 18 comma-joined fields of one CSV data row (`src/main.rs:357-378`);
the cardholder name and the user agent are wrapped in double quotes by
the format string. -/
def csv_fields (tx : Transaction) : List String :=
  [tx.transaction_id, tx.transaction_date, csv_status_label tx.status,
   csv_decline_field tx.decline_reason,
   "\"" ++ tx.cardholder_name ++ "\"", tx.card_number, tx.card_brand,
   tx.card_expiry, tx.cvv, format_amount_2 tx.amount, tx.currency,
   tx.merchant_name, tx.merchant_id, tx.merchant_category,
   tx.payment_method, tx.ip_address, tx.device_id,
   "\"" ++ tx.user_agent ++ "\""]

/-- One CSV data row: the fields joined by commas, as the row format
string of `src/main.rs:359` does. -/
def csv_row (tx : Transaction) : String :=
  String.intercalate "," (csv_fields tx)

/-- `write_transactions_to_csv` (`src/main.rs:329-382`), with the
created file modelled as its list of lines (`File::create` truncates, so
the lines below are the whole file content): the header line followed by
one row per transaction. -/
def write_transactions_to_csv (txs : List Transaction) : List String :=
  csv_header :: txs.map csv_row

/-- The JSON value tree produced by `serde_json` (modelled at the AST
level; `to_string_pretty` renders this tree). -/
inductive Json where
  | null
  | str (s : String)
  | num (q : ℚ)
  | arr (xs : List Json)
  | obj (fields : List (String × Json))

/-- Serde serialization of `TransactionStatus`: the
`#[serde(rename = ...)]` labels of `src/main.rs:31-41`. -/
def serde_status_label : TransactionStatus → String
  | .Approved => "approved"
  | .Declined => "declined"
  | .Pending => "pending"
  | .Refunded => "refunded"

/-- Serde serialization of `DeclineReason`: the labels of
`src/main.rs:56-66`. -/
def serde_decline_label : DeclineReason → String
  | .InsufficientFunds => "insufficient_funds"
  | .CardExpired => "card_expired"
  | .InvalidCard => "invalid_card"
  | .SuspiciousActivity => "suspicious_activity"

/-- Serde serialization of `Option<DeclineReason>`: `None` is JSON
`null`, `Some` is the variant label. -/
def serde_decline_json : Option DeclineReason → Json
  | none => .null
  | some r => .str (serde_decline_label r)

/-- The key/value pairs of the serde serialization of one `Transaction`
(`src/main.rs:98-118`): field names are the struct field identifiers, in
declaration order; strings serialize as JSON strings, the amount as a
JSON number. -/
def transaction_json_fields (tx : Transaction) : List (String × Json) :=
  [("transaction_id", .str tx.transaction_id),
   ("transaction_date", .str tx.transaction_date),
   ("status", .str (serde_status_label tx.status)),
   ("decline_reason", serde_decline_json tx.decline_reason),
   ("cardholder_name", .str tx.cardholder_name),
   ("card_number", .str tx.card_number),
   ("card_brand", .str tx.card_brand),
   ("card_expiry", .str tx.card_expiry),
   ("cvv", .str tx.cvv),
   ("amount", .num tx.amount),
   ("currency", .str tx.currency),
   ("merchant_name", .str tx.merchant_name),
   ("merchant_id", .str tx.merchant_id),
   ("merchant_category", .str tx.merchant_category),
   ("payment_method", .str tx.payment_method),
   ("ip_address", .str tx.ip_address),
   ("device_id", .str tx.device_id),
   ("user_agent", .str tx.user_agent)]

/-- One transaction as a JSON object. -/
def transaction_to_json (tx : Transaction) : Json :=
  .obj (transaction_json_fields tx)

/-- `write_transactions_to_json` (`src/main.rs:385-390`): the whole
batch as one JSON array (the file content is the pretty-printing of this
tree). -/
def write_transactions_to_json (txs : List Transaction) : Json :=
  .arr (txs.map transaction_to_json)

/-- The merchant table built in `main` (`src/main.rs:437-488`). -/
def merchants : List Merchant :=
  [ { name := "Acme Retail", id := "MER12345", category := "Retail" },
    { name := "Sunshine Groceries", id := "MER22468", category := "Grocery" },
    { name := "Tech Universe", id := "MER39521", category := "Electronics" },
    { name := "Cozy Coffee Shop", id := "MER41327", category := "Food & Beverage" },
    { name := "Fitness Plus", id := "MER57845", category := "Health & Fitness" },
    { name := "BookWorld", id := "MER61234", category := "Books & Media" },
    { name := "QuickMart", id := "MER78523", category := "Convenience Store" },
    { name := "Urban Fashion", id := "MER84751", category := "Clothing" },
    { name := "Travel Now", id := "MER92456", category := "Travel" },
    { name := "Gourmet Dining", id := "MER10387", category := "Restaurant" } ]

/-- The first-name table of `main` (`src/main.rs:491-512`). -/
def first_names : List String :=
  ["John", "Jane", "Michael", "Emily", "David", "Sarah", "Robert", "Lisa",
   "William", "Emma", "James", "Olivia", "Daniel", "Sophia", "Matthew",
   "Ava", "Christopher", "Mia", "Andrew", "Isabella"]

/-- The last-name table of `main` (`src/main.rs:515-536`). -/
def last_names : List String :=
  ["Smith", "Johnson", "Williams", "Brown", "Jones", "Garcia", "Miller",
   "Davis", "Rodriguez", "Martinez", "Hernandez", "Lopez", "Gonzalez",
   "Wilson", "Anderson", "Thomas", "Taylor", "Moore", "Jackson", "Martin"]

/-- The currency table of `main` (`src/main.rs:539-546`). -/
def currencies : List String :=
  ["USD", "EUR", "GBP", "CAD", "AUD", "JPY"]

/-- The user-agent table of `main` (`src/main.rs:549-553`). -/
def user_agents : List String :=
  ["Mozilla/5.0 (Windows NT 10.0; Win64; x64) AppleWebKit/537.36 (KHTML, like Gecko) Chrome/91.0.4472.124 Safari/537.36",
   "Mozilla/5.0 (Macintosh; Intel Mac OS X 10_15_7) AppleWebKit/605.1.15 (KHTML, like Gecko) Version/14.1.1 Safari/605.1.15",
   "Mozilla/5.0 (iPhone; CPU iPhone OS 14_6 like Mac OS X) AppleWebKit/605.1.15 (KHTML, like Gecko) Version/14.0 Mobile/15E148 Safari/604.1"]

/-- A fixed environment for concrete evaluations: generation in 2026,
with an arbitrary date rendering. -/
def sample_env : Env :=
  { currentYear := 2026, renderDate := fun _ => "" }

/-- Concrete draws over the real tables selecting the "JPY" currency
(index 5) and zero for everything else. -/
def draws_jpy : TxDraws card_brands merchants first_names last_names currencies user_agents :=
  { bIdx := ⟨0, by decide⟩, pIdx := ⟨0, by decide⟩, lnIdx := ⟨0, by decide⟩,
    cardFill := fun _ => 0, cvvFill := fun _ => 0,
    statusDraw := 0, declineDraw := 0,
    mIdx := ⟨0, by decide⟩, fIdx := ⟨0, by decide⟩, laIdx := ⟨0, by decide⟩,
    cIdx := ⟨5, by decide⟩, uIdx := ⟨0, by decide⟩,
    jpyDraw := 0, intDraw := 0, fracDraw := ⟨0, by norm_num⟩,
    txIdDraw := fun _ => 0, daysAgo := 0,
    ipA := 0, ipB := 0, ipC := 0, ipD := 0,
    devDraw := 0, expYears := 0, expMonth := 0 }

/-- Concrete draws over the real tables selecting "USD" (index 0), the
largest integer amount draw (`gen_range(1..=1000)` returning 1000) and a
fractional draw of 0.999, whose cents value rounds up to 100. -/
def draws_usd_max : TxDraws card_brands merchants first_names last_names currencies user_agents :=
  { bIdx := ⟨0, by decide⟩, pIdx := ⟨0, by decide⟩, lnIdx := ⟨0, by decide⟩,
    cardFill := fun _ => 0, cvvFill := fun _ => 0,
    statusDraw := 0, declineDraw := 0,
    mIdx := ⟨0, by decide⟩, fIdx := ⟨0, by decide⟩, laIdx := ⟨0, by decide⟩,
    cIdx := ⟨0, by decide⟩, uIdx := ⟨0, by decide⟩,
    jpyDraw := 0, intDraw := ⟨999, by decide⟩,
    fracDraw := ⟨999 / 1000, by norm_num⟩,
    txIdDraw := fun _ => 0, daysAgo := 0,
    ipA := 0, ipB := 0, ipC := 0, ipD := 0,
    devDraw := 0, expYears := 0, expMonth := 0 }

/-- A concrete transaction record used to instantiate serializer
statements. -/
def sample_tx : Transaction :=
  { transaction_id := "TXN000000000", transaction_date := "2026-01-01",
    status := .Approved, decline_reason := none,
    cardholder_name := "John Smith", card_number := "4000000000000006",
    card_brand := "Visa", card_expiry := "01/27", cvv := "000",
    amount := 5, currency := "USD", merchant_name := "Acme Retail",
    merchant_id := "MER12345", merchant_category := "Retail",
    payment_method := "credit_card", ip_address := "1.0.0.0",
    device_id := "DEV10000",
    user_agent := "Mozilla/5.0 (Windows NT 10.0; Win64; x64) AppleWebKit/537.36 (KHTML, like Gecko) Chrome/91.0.4472.124 Safari/537.36" }

/-! ## Helper lemmas -/

theorem padTo15_length (seed : List ℕ) (fill : ℕ → Fin 10)
    (h : seed.length ≤ 15) : (padTo15 seed fill).length = 15 := by
  simp only [padTo15, List.length_append, List.length_map, List.length_range]
  omega

theorem padTo15_digits (seed : List ℕ) (fill : ℕ → Fin 10)
    (h : ∀ d ∈ seed, d ≤ 9) : ∀ d ∈ padTo15 seed fill, d ≤ 9 := by
  intro d hd
  rcases List.mem_append.mp hd with h1 | h2
  · exact h d h1
  · obtain ⟨i, _, rfl⟩ := List.mem_map.mp h2
    exact Nat.lt_succ_iff.mp (fill i).isLt

theorem apply_luhn_eq (seed : List ℕ) (fill : ℕ → Fin 10)
    (h : seed.length ≤ 15) :
    apply_luhn_algorithm seed fill =
      padTo15 seed fill ++ [(10 - luhnSum (padTo15 seed fill) % 10) % 10] := by
  simp only [apply_luhn_algorithm, padTo15_length seed fill h]
  norm_num

theorem apply_luhn_length (seed : List ℕ) (fill : ℕ → Fin 10)
    (h : seed.length ≤ 15) : (apply_luhn_algorithm seed fill).length = 16 := by
  rw [apply_luhn_eq seed fill h]
  simp [padTo15_length seed fill h]

theorem apply_luhn_digits (seed : List ℕ) (fill : ℕ → Fin 10)
    (h9 : ∀ d ∈ seed, d ≤ 9) (h : seed.length ≤ 15) :
    ∀ d ∈ apply_luhn_algorithm seed fill, d ≤ 9 := by
  rw [apply_luhn_eq seed fill h]
  intro d hd
  rcases List.mem_append.mp hd with h1 | h2
  · exact padTo15_digits seed fill h9 d h1
  · have hd2 : d = (10 - luhnSum (padTo15 seed fill) % 10) % 10 := by
      simpa using h2
    omega

theorem generate_card_number_spec (brand : CardBrand)
    (pIdx : Fin brand.prefixes.length) (lnIdx : Fin brand.lengths.length)
    (fill : ℕ → Fin 10) (hp : (brand.prefixes.get pIdx).length ≤ 15)
    (hd : ∀ d ∈ brand.prefixes.get pIdx, d ≤ 9)
    (hl : brand.lengths.get lnIdx ≤ 16) :
    (generate_card_number brand pIdx lnIdx fill).length = brand.lengths.get lnIdx
    ∧ (∀ d ∈ generate_card_number brand pIdx lnIdx fill, d ≤ 9) := by
  constructor
  · simp only [generate_card_number, List.length_take,
      apply_luhn_length _ fill hp]
    omega
  · intro d hmem
    exact apply_luhn_digits _ fill hd hp d (List.mem_of_mem_take hmem)

set_option maxRecDepth 4000 in
theorem card_brands_ok : ∀ b ∈ card_brands, brandOk b := by decide

theorem digitsToString_length (l : List ℕ) :
    (digitsToString l).length = l.length := by
  have h : (digitsToString l).length = (l.map Nat.digitChar).length := rfl
  rw [h, List.length_map]

theorem digitChar_isDigit : ∀ d : ℕ, d ≤ 9 → (Nat.digitChar d).isDigit = true := by
  decide

theorem pad2_length : ∀ m : ℕ, m < 100 → (pad2 m).length = 2 := by
  decide

/-! ## Claim theorems -/

/-- C1: claimed that generating one record for the American Express
brand (lengths {15}, prefixes {"34","37"}) with prefix "34" chosen
yields a 15-digit number starting with "34" that satisfies the Luhn
checksum relation. Length and prefix hold, but the Luhn relation fails:
with all fill draws 0 the generated number is 340000000000000, whose
Luhn sum is 11 ≡ 1 (mod 10). The appended check digit is cut off by the
final truncation to 15 characters, and the check-digit loop in any case
starts doubling at the wrong parity for an appended digit. -/
theorem c1_amex_luhn_violation :
    (card_brands.get ⟨2, by decide⟩).name = "American Express"
    ∧ (card_brands.get ⟨2, by decide⟩).prefixes.get ⟨0, by decide⟩ = [3, 4]
    ∧ generate_card_number (card_brands.get ⟨2, by decide⟩) ⟨0, by decide⟩
        ⟨0, by decide⟩ (fun _ => (0 : Fin 10)) =
        [3, 4, 0, 0, 0, 0, 0, 0, 0, 0, 0, 0, 0, 0, 0]
    ∧ ([3, 4, 0, 0, 0, 0, 0, 0, 0, 0, 0, 0, 0, 0, 0] : List ℕ).length = 15
    ∧ ([3, 4, 0, 0, 0, 0, 0, 0, 0, 0, 0, 0, 0, 0, 0] : List ℕ).take 2 = [3, 4]
    ∧ luhnSum [3, 4, 0, 0, 0, 0, 0, 0, 0, 0, 0, 0, 0, 0, 0] % 10 = 1 := by
  decide

/-- C2: claimed that whenever the drawn target length equals the length
of the string at the time the check digit was appended (so the final
truncation removes nothing — in particular for every 16-length brand),
the output satisfies the Luhn checksum relation. For Visa (prefix "4",
target 16) with all fill draws 0, the full untruncated output is
4000000000000006 and its Luhn sum is 14 ≡ 4 (mod 10): the check-digit
loop starts its doubling at the second-from-rightmost digit of the
15-digit payload instead of the rightmost, so the appended digit does
not make the 16-digit number Luhn-valid. -/
theorem c2_visa_luhn_violation :
    (card_brands.get ⟨0, by decide⟩).name = "Visa"
    ∧ (card_brands.get ⟨0, by decide⟩).lengths.get ⟨0, by decide⟩ = 16
    ∧ (apply_luhn_algorithm ((card_brands.get ⟨0, by decide⟩).prefixes.get
        ⟨0, by decide⟩) (fun _ => (0 : Fin 10))).length = 16
    ∧ generate_card_number (card_brands.get ⟨0, by decide⟩) ⟨0, by decide⟩
        ⟨0, by decide⟩ (fun _ => (0 : Fin 10)) =
        [4, 0, 0, 0, 0, 0, 0, 0, 0, 0, 0, 0, 0, 0, 0, 6]
    ∧ luhnSum [4, 0, 0, 0, 0, 0, 0, 0, 0, 0, 0, 0, 0, 0, 0, 6] % 10 = 4 := by
  decide

/-- C3: every card number generated from the brand table of `main` has,
over every random draw, exactly the drawn target length (in characters
of the rendered string), and every character of it is a decimal digit. -/
theorem c3_card_number_length_and_digits (bIdx : Fin card_brands.length)
    (pIdx : Fin (card_brands.get bIdx).prefixes.length)
    (lnIdx : Fin (card_brands.get bIdx).lengths.length)
    (fill : ℕ → Fin 10) :
    (digitsToString (generate_card_number (card_brands.get bIdx) pIdx lnIdx
        fill)).length = (card_brands.get bIdx).lengths.get lnIdx
    ∧ ∀ c ∈ (digitsToString (generate_card_number (card_brands.get bIdx)
        pIdx lnIdx fill)).data, c.isDigit = true := by
  obtain ⟨hpref, hlens⟩ := card_brands_ok _ (card_brands.get_mem bIdx.val bIdx.isLt)
  obtain ⟨hp1, hp2⟩ := hpref _ (((card_brands.get bIdx).prefixes).get_mem pIdx.val pIdx.isLt)
  have hl := hlens _ (((card_brands.get bIdx).lengths).get_mem lnIdx.val lnIdx.isLt)
  obtain ⟨hlen, hdig⟩ := generate_card_number_spec (card_brands.get bIdx)
    pIdx lnIdx fill hp1 hp2 hl
  refine ⟨?_, ?_⟩
  · rw [digitsToString_length]
    exact hlen
  · intro c hc
    have hc' : c ∈ (generate_card_number (card_brands.get bIdx) pIdx lnIdx
        fill).map Nat.digitChar := hc
    obtain ⟨d, hdm, rfl⟩ := List.mem_map.mp hc'
    exact digitChar_isDigit d (hdig d hdm)

/-- C10 counterexample: the implicit claim asserts that for every
all-digit input of length at most 15 the full 16-digit output of
`apply_luhn_algorithm` has Luhn sum ≡ 0 (mod 10). With input "37" and
all fill draws 0 the output is 3700000000000002, whose Luhn sum is
15 ≡ 5 (mod 10). -/
theorem c10_check_digit_not_luhn :
    (∀ d ∈ ([3, 7] : List ℕ), d ≤ 9) ∧ ([3, 7] : List ℕ).length ≤ 15
    ∧ apply_luhn_algorithm [3, 7] (fun _ => (0 : Fin 10)) =
        [3, 7, 0, 0, 0, 0, 0, 0, 0, 0, 0, 0, 0, 0, 0, 2]
    ∧ luhnSum [3, 7, 0, 0, 0, 0, 0, 0, 0, 0, 0, 0, 0, 0, 0, 2] % 10 = 5 := by
  decide

/-- C10 (amended): for every all-digit input of length at most 15,
`apply_luhn_algorithm` returns exactly 16 decimal digits of the shape
payload ++ [check] with a 15-digit payload, and the appended check digit
satisfies (luhnSum payload + check) ≡ 0 (mod 10) — the sum the code
computes over the payload, not the Luhn sum of the full 16-digit string;
consequently, for every brand of the `main` table the byte slice
`full_number[0..length]` in `generate_card_number` is in bounds (and on
a character boundary, all characters being ASCII digits), so it never
panics. -/
theorem c10_amended_apply_luhn_shape_and_safe :
    (∀ (seed : List ℕ) (fill : ℕ → Fin 10), (∀ d ∈ seed, d ≤ 9) →
      seed.length ≤ 15 →
      (apply_luhn_algorithm seed fill).length = 16
      ∧ (∀ d ∈ apply_luhn_algorithm seed fill, d ≤ 9)
      ∧ ∃ p c, apply_luhn_algorithm seed fill = p ++ [c] ∧ p.length = 15
          ∧ c ≤ 9 ∧ (luhnSum p + c) % 10 = 0)
    ∧ ∀ (bIdx : Fin card_brands.length)
        (pIdx : Fin (card_brands.get bIdx).prefixes.length)
        (lnIdx : Fin (card_brands.get bIdx).lengths.length)
        (fill : ℕ → Fin 10),
        generate_card_number_slice_ok (card_brands.get bIdx) pIdx lnIdx fill := by
  constructor
  · intro seed fill h9 hlen
    refine ⟨apply_luhn_length seed fill hlen,
      apply_luhn_digits seed fill h9 hlen,
      padTo15 seed fill, (10 - luhnSum (padTo15 seed fill) % 10) % 10,
      apply_luhn_eq seed fill hlen, padTo15_length seed fill hlen, ?_, ?_⟩
    · omega
    · omega
  · intro bIdx pIdx lnIdx fill
    obtain ⟨hpref, hlens⟩ := card_brands_ok _ (card_brands.get_mem bIdx.val bIdx.isLt)
    obtain ⟨hp1, _⟩ := hpref _ (((card_brands.get bIdx).prefixes).get_mem pIdx.val pIdx.isLt)
    have hl := hlens _ (((card_brands.get bIdx).lengths).get_mem lnIdx.val lnIdx.isLt)
    unfold generate_card_number_slice_ok
    rw [apply_luhn_length _ fill hp1]
    exact hl

/-- Witness for the amended C10 theorem at concrete inputs: the seed
"34" with all-zero fill draws, and the American Express entry of the
brand table. -/
theorem c10_amended_witness :
    (apply_luhn_algorithm [3, 4] (fun _ => (0 : Fin 10))).length = 16
    ∧ generate_card_number_slice_ok (card_brands.get ⟨2, by decide⟩)
        ⟨0, by decide⟩ ⟨0, by decide⟩ (fun _ => (0 : Fin 10)) :=
  ⟨(c10_amended_apply_luhn_shape_and_safe.1 [3, 4] (fun _ => (0 : Fin 10))
      (by decide) (by decide)).1,
   c10_amended_apply_luhn_shape_and_safe.2 ⟨2, by decide⟩ ⟨0, by decide⟩
      ⟨0, by decide⟩ (fun _ => (0 : Fin 10))⟩

/-- C4: for every generated transaction, the decline reason is present
(`some` of one of the four `DeclineReason` values, by the type) exactly
when the status is `Declined`; for approved, pending and refunded
records it is `none`. -/
theorem c4_decline_reason_iff_declined (env : Env) (cbs : List CardBrand)
    (mers : List Merchant) (fns lns curs uas : List String)
    (d : TxDraws cbs mers fns lns curs uas) (tx : Transaction)
    (htx : tx = generate_transaction env cbs mers fns lns curs uas d) :
    (∃ r : DeclineReason, tx.decline_reason = some r) ↔
      tx.status = TransactionStatus.Declined := by
  subst htx
  simp only [generate_transaction]
  cases h : sample_status d.statusDraw <;> simp [h]

/-- Witness for C4 at concrete draws over the tables of `main`. -/
theorem c4_witness :
    (∃ r : DeclineReason, (generate_transaction sample_env card_brands
        merchants first_names last_names currencies user_agents
        draws_jpy).decline_reason = some r) ↔
      (generate_transaction sample_env card_brands merchants first_names
        last_names currencies user_agents draws_jpy).status =
        TransactionStatus.Declined :=
  c4_decline_reason_iff_declined sample_env card_brands merchants
    first_names last_names currencies user_agents draws_jpy _ rfl

/-- C5 counterexample: the claim bounds non-JPY amounts by the half-open
interval [1, 1001), but the amount 1001 is attainable — with currency
"USD", the integer draw 1000 and the fractional draw 0.999 (whose cents
value (0.999 * 100).round() is 100), the generated amount is exactly
1001. -/
theorem c5_amount_upper_bound_attained :
    (generate_transaction sample_env card_brands merchants first_names
        last_names currencies user_agents draws_usd_max).currency = "USD"
    ∧ (generate_transaction sample_env card_brands merchants first_names
        last_names currencies user_agents draws_usd_max).amount = 1001
    ∧ ¬ ((generate_transaction sample_env card_brands merchants first_names
        last_names currencies user_agents draws_usd_max).amount < 1001) := by
  have hamt : (generate_transaction sample_env card_brands merchants
      first_names last_names currencies user_agents draws_usd_max).amount =
      ((1 + 999 : ℕ) : ℚ) + (f64_round ((999 / 1000 : ℚ) * 100) : ℚ) / 100 := rfl
  have h1001 : (generate_transaction sample_env card_brands merchants
      first_names last_names currencies user_agents draws_usd_max).amount =
      1001 := by
    rw [hamt]; norm_num [f64_round]
  exact ⟨by decide, h1001, by rw [h1001]; norm_num⟩

/-- C5 (amended): for every generated transaction, over every random
draw: if the currency is "JPY" the amount is a whole number in
[100, 50000]; otherwise the amount lies in the closed interval
[1, 1001] (the endpoint 1001 is attainable when the fractional draw
rounds up to a full unit) and has at most two decimal places (it is an
integer number of hundredths). -/
theorem c5_amount_ranges (env : Env) (cbs : List CardBrand)
    (mers : List Merchant) (fns lns curs uas : List String)
    (d : TxDraws cbs mers fns lns curs uas) (tx : Transaction)
    (htx : tx = generate_transaction env cbs mers fns lns curs uas d) :
    (tx.currency = "JPY" →
      (∃ n : ℕ, tx.amount = (n : ℚ)) ∧ (100 : ℚ) ≤ tx.amount
        ∧ tx.amount ≤ 50000)
    ∧ (tx.currency ≠ "JPY" →
      (1 : ℚ) ≤ tx.amount ∧ tx.amount ≤ 1001
        ∧ ∃ m : ℤ, tx.amount * 100 = (m : ℚ)) := by
  subst htx
  have hcur : (generate_transaction env cbs mers fns lns curs uas d).currency =
      curs.get d.cIdx := rfl
  have hamt : (generate_transaction env cbs mers fns lns curs uas d).amount =
      (if curs.get d.cIdx = "JPY" then ((100 + d.jpyDraw.val : ℕ) : ℚ)
       else ((1 + d.intDraw.val : ℕ) : ℚ)
              + (f64_round (d.fracDraw.val * 100) : ℚ) / 100) := rfl
  rw [hcur, hamt]
  by_cases hc : curs.get d.cIdx = "JPY"
  · rw [if_pos hc]
    constructor
    · intro _
      refine ⟨⟨100 + d.jpyDraw.val, rfl⟩, ?_, ?_⟩
      · exact_mod_cast Nat.le_add_right 100 d.jpyDraw.val
      · have hj : 100 + d.jpyDraw.val ≤ 50000 := by
          have := d.jpyDraw.isLt; omega
        exact_mod_cast hj
    · intro hne
      exact absurd hc hne
  · rw [if_neg hc]
    constructor
    · intro heq
      exact absurd heq hc
    · intro _
      have hu := d.fracDraw.property
      have hk0 : (0 : ℤ) ≤ f64_round (d.fracDraw.val * 100) := by
        apply Int.le_floor.mpr
        push_cast
        nlinarith [hu.1]
      have hk1 : f64_round (d.fracDraw.val * 100) ≤ 100 := by
        have hlt : f64_round (d.fracDraw.val * 100) < 101 := by
          apply Int.floor_lt.mpr
          push_cast
          nlinarith [hu.2]
        omega
      have hi1 : (1 : ℚ) ≤ ((1 + d.intDraw.val : ℕ) : ℚ) := by
        exact_mod_cast Nat.le_add_right 1 d.intDraw.val
      have hi2 : ((1 + d.intDraw.val : ℕ) : ℚ) ≤ 1000 := by
        have := d.intDraw.isLt
        exact_mod_cast by omega
      have hkq0 : (0 : ℚ) ≤ (f64_round (d.fracDraw.val * 100) : ℚ) / 100 := by
        apply div_nonneg _ (by norm_num)
        exact_mod_cast hk0
      have hkq1 : (f64_round (d.fracDraw.val * 100) : ℚ) / 100 ≤ 1 := by
        rw [div_le_one (by norm_num)]
        exact_mod_cast hk1
      refine ⟨by linarith, by linarith, ?_⟩
      refine ⟨((1 + d.intDraw.val : ℕ) : ℤ) * 100 + f64_round (d.fracDraw.val * 100), ?_⟩
      push_cast
      ring

/-- Witness for the amended C5 theorem: concrete draws selecting the
"JPY" currency from the currency table of `main`. -/
theorem c5_amended_witness :
    (100 : ℚ) ≤ (generate_transaction sample_env card_brands merchants
      first_names last_names currencies user_agents draws_jpy).amount :=
  ((c5_amount_ranges sample_env card_brands merchants first_names
      last_names currencies user_agents draws_jpy _ rfl).1 (by decide)).2.1

/-- C6: for every count N, the batch generator yields exactly N records;
the CSV file has N + 1 lines, the first being the header, and the JSON
file is an array of N objects; for N = 0 the CSV file is exactly the
header line and the JSON file is the empty array. -/
theorem c6_batch_count (env : Env) (count : ℕ) (cbs : List CardBrand)
    (mers : List Merchant) (fns lns curs uas : List String)
    (draws : ℕ → TxDraws cbs mers fns lns curs uas) :
    (generate_transactions env count cbs mers fns lns curs uas draws).length = count
    ∧ (write_transactions_to_csv (generate_transactions env count cbs mers
        fns lns curs uas draws)).length = count + 1
    ∧ (write_transactions_to_csv (generate_transactions env count cbs mers
        fns lns curs uas draws)).head? = some csv_header
    ∧ (∃ js : List Json, write_transactions_to_json (generate_transactions
        env count cbs mers fns lns curs uas draws) = Json.arr js
        ∧ js.length = count)
    ∧ (count = 0 →
        write_transactions_to_csv (generate_transactions env count cbs mers
          fns lns curs uas draws) = [csv_header]
        ∧ write_transactions_to_json (generate_transactions env count cbs
          mers fns lns curs uas draws) = Json.arr []) := by
  have hlen : (generate_transactions env count cbs mers fns lns curs uas
      draws).length = count := by
    simp [generate_transactions]
  refine ⟨hlen, ?_, rfl, ⟨_, rfl, by simp [hlen]⟩, ?_⟩
  · simp [write_transactions_to_csv, hlen]
  · intro h0
    subst h0
    exact ⟨rfl, rfl⟩

/-- Witness for C6 at count 0 over the tables of `main`. -/
theorem c6_witness :
    write_transactions_to_csv (generate_transactions sample_env 0 card_brands
      merchants first_names last_names currencies user_agents
      (fun _ => draws_jpy)) = [csv_header] :=
  ((c6_batch_count sample_env 0 card_brands merchants first_names
      last_names currencies user_agents (fun _ => draws_jpy)).2.2.2.2 rfl).1

theorem repr_length_two : ∀ m : ℕ, m < 100 → 10 ≤ m → (Nat.repr m).length = 2 := by
  decide

set_option maxRecDepth 10000 in
/-- C7: the two serializers are cross-format consistent: the JSON
encoder uses exactly the 18 field names of the CSV header, in the
header's order (and that 18-name list comma-joined is exactly the
header literal of the source); an absent decline reason is the empty
CSV field and JSON `null`; status and decline reason render as the same
lowercase snake_case labels in both encoders; and the CSV amount field
has exactly two decimal places. -/
theorem c7_cross_format_consistency (tx : Transaction) :
    (transaction_json_fields tx).map Prod.fst = csv_header_fields
    ∧ String.intercalate "," csv_header_fields = csv_header
    ∧ (csv_fields tx).length = 18
    ∧ csv_header_fields.length = 18
    ∧ (tx.decline_reason = none →
        (csv_fields tx).get? 3 = some ""
        ∧ (transaction_json_fields tx).get? 3 =
            some ("decline_reason", Json.null))
    ∧ (∀ r : DeclineReason, tx.decline_reason = some r →
        (csv_fields tx).get? 3 = some (csv_decline_label r)
        ∧ (transaction_json_fields tx).get? 3 =
            some ("decline_reason", Json.str (serde_decline_label r))
        ∧ serde_decline_label r = csv_decline_label r)
    ∧ (csv_fields tx).get? 2 = some (csv_status_label tx.status)
    ∧ (transaction_json_fields tx).get? 2 =
        some ("status", Json.str (serde_status_label tx.status))
    ∧ serde_status_label tx.status = csv_status_label tx.status
    ∧ (csv_fields tx).get? 9 = some (format_amount_2 tx.amount)
    ∧ ∃ a b, format_amount_2 tx.amount = a ++ "." ++ b ∧ b.length = 2 := by
  have hdecl : (csv_fields tx).get? 3 =
      some (csv_decline_field tx.decline_reason) := rfl
  have hjdecl : (transaction_json_fields tx).get? 3 =
      some ("decline_reason", serde_decline_json tx.decline_reason) := rfl
  refine ⟨rfl, by decide, rfl, rfl, ?_, ?_, rfl, rfl, ?_, rfl, ?_⟩
  · intro h
    rw [hdecl, hjdecl, h]
    exact ⟨rfl, rfl⟩
  · intro r hr
    rw [hdecl, hjdecl, hr]
    exact ⟨rfl, rfl, by cases r <;> rfl⟩
  · cases tx.status <;> rfl
  · refine ⟨Nat.repr ((f64_round (tx.amount * 100)).toNat / 100),
      pad2 ((f64_round (tx.amount * 100)).toNat % 100), rfl, ?_⟩
    exact pad2_length _ (Nat.mod_lt _ (by norm_num))

/-- Witness for C7 at a concrete record with an absent decline reason. -/
theorem c7_witness :
    (csv_fields sample_tx).get? 3 = some ""
    ∧ (transaction_json_fields sample_tx).get? 3 =
        some ("decline_reason", Json.null) :=
  (c7_cross_format_consistency sample_tx).2.2.2.2.1 rfl

/-- C8 counterexample: the claim says the device number is drawn from
the closed interval [10000, 99999] with 99999 attainable, but
`rng.gen_range(10000..99999)` excludes its upper bound: no draw yields
the device number 99999. -/
theorem c8_99999_unreachable :
    ¬ ∃ d : Fin 89999, device_id_num d = 99999 := by
  rintro ⟨d, h⟩
  have := d.isLt
  simp only [device_id_num] at h
  omega

/-- C8 (amended): every generated device id is the literal "DEV"
followed by the drawn 5-digit number, which is uniform on the half-open
interval [10000, 99999): every value in [10000, 99998] is a possible
outcome, and 99999 is not. -/
theorem c8_amended_device_id :
    (∀ d : Fin 89999,
      gen_device_id d = "DEV" ++ Nat.repr (device_id_num d)
      ∧ 10000 ≤ device_id_num d ∧ device_id_num d ≤ 99998)
    ∧ ∀ n : ℕ, 10000 ≤ n → n ≤ 99998 →
        ∃ d : Fin 89999, device_id_num d = n := by
  constructor
  · intro d
    have := d.isLt
    refine ⟨rfl, ?_, ?_⟩ <;> · simp only [device_id_num]; omega
  · intro n h1 h2
    exact ⟨⟨n - 10000, by omega⟩, by simp only [device_id_num]; omega⟩

/-- Witness for the amended C8 theorem at concrete values. -/
theorem c8_amended_witness :
    10000 ≤ device_id_num ⟨0, by norm_num⟩
    ∧ ∃ d : Fin 89999, device_id_num d = 99998 :=
  ⟨(c8_amended_device_id.1 ⟨0, by norm_num⟩).2.1,
   c8_amended_device_id.2 99998 (by norm_num) (by norm_num)⟩

/-- C9 counterexample: the claim says the expiry renders as zero-padded
MM/YY with two digits for the year part, but the source format string
`{:02}/{}` does not pad the year: generating in year 2099 with a
5-year offset and month 4 yields the expiry 04/2104, rendered "04/4"
(4 characters instead of the 5 of an MM/YY rendering). -/
theorem c9_year_not_zero_padded :
    (gen_random_expiry_date 2099 ⟨4, by norm_num⟩ ⟨3, by norm_num⟩).to_string
      = "04/4"
    ∧ ((gen_random_expiry_date 2099 ⟨4, by norm_num⟩
        ⟨3, by norm_num⟩).to_string).length = 4 := by
  constructor <;> decide

/-- C9 (amended): every generated expiry has month in [1, 12] and year
equal to the current year plus a uniform integer in [1, 5], hence
strictly in the future; it renders as the zero-padded two-digit month,
a slash, and the year mod 100 rendered without padding — which has two
digits exactly when year mod 100 is at least 10. -/
theorem c9_amended_expiry (cy : ℕ) (yd : Fin 5) (md : Fin 12) :
    1 ≤ (gen_random_expiry_date cy yd md).month
    ∧ (gen_random_expiry_date cy yd md).month ≤ 12
    ∧ (gen_random_expiry_date cy yd md).year = cy + (1 + yd.val)
    ∧ cy < (gen_random_expiry_date cy yd md).year
    ∧ (gen_random_expiry_date cy yd md).to_string =
        pad2 (gen_random_expiry_date cy yd md).month ++ "/"
          ++ Nat.repr ((gen_random_expiry_date cy yd md).year % 100)
    ∧ (pad2 (gen_random_expiry_date cy yd md).month).length = 2
    ∧ (10 ≤ (gen_random_expiry_date cy yd md).year % 100 →
        (Nat.repr ((gen_random_expiry_date cy yd md).year % 100)).length = 2) := by
  have hm := md.isLt
  have hy := yd.isLt
  refine ⟨?_, ?_, rfl, ?_, rfl, ?_, ?_⟩
  · simp only [gen_random_expiry_date]
    omega
  · simp only [gen_random_expiry_date]
    omega
  · simp only [gen_random_expiry_date]
    omega
  · refine pad2_length _ ?_
    simp only [gen_random_expiry_date]
    omega
  · intro h10
    exact repr_length_two _ (Nat.mod_lt _ (by norm_num)) h10

/-- Witness for the amended C9 theorem: generation year 2026, smallest
draws, expiry 01/27. -/
theorem c9_amended_witness :
    (Nat.repr ((gen_random_expiry_date 2026 ⟨0, by norm_num⟩
      ⟨0, by norm_num⟩).year % 100)).length = 2 :=
  (c9_amended_expiry 2026 ⟨0, by norm_num⟩ ⟨0, by norm_num⟩).2.2.2.2.2.2
    (by decide)

end LuhnSynth
